import Mathlib

set_option maxRecDepth 8192

/-!
Verification of the symptom red-flag detection and urgency classification
engine of the AI Wellness Assistant
(`wellness_assistant/core/symptoms.py`, `wellness_assistant/utils/validators.py`).

The Python code is shallowly embedded: strings are Lean `String`s (lists of
characters), the regex character classes `\w` and `\s` are modelled with their
ASCII semantics, `ValidationError` becomes the `Except.error` branch, and the
catch-all `except` clause of `analyze_symptoms` becomes an explicit sum type.
-/

/-! Character classes (ASCII semantics of the Python regexes) -/

/-- Model of the regex class `\s` (Python whitespace): space, tab, newline,
carriage return, vertical tab, form feed. -/
def isSpaceC (c : Char) : Bool :=
  c.toNat = 32 || c.toNat = 9 || c.toNat = 10 || c.toNat = 13 ||
  c.toNat = 11 || c.toNat = 12

/-- Model of the regex class `\w`: letters, digits, underscore. -/
def isWordC (c : Char) : Bool :=
  (97 ≤ c.toNat && c.toNat ≤ 122) || (65 ≤ c.toNat && c.toNat ≤ 90) ||
  (48 ≤ c.toNat && c.toNat ≤ 57) || c.toNat = 95

/-- Characters kept by the character-stripping substitution of the sanitizer:
word characters, whitespace, and `- . , ! ?`. -/
def allowedC (c : Char) : Bool :=
  isWordC c || isSpaceC c ||
  c.toNat = 45 || c.toNat = 46 || c.toNat = 44 || c.toNat = 33 || c.toNat = 63

/-! Whitespace normalization (strip, then collapse runs to single spaces) -/

/-- Model of `str.strip()`: drop leading and trailing whitespace. -/
def stripWS (l : List Char) : List Char :=
  ((l.dropWhile (fun c => isSpaceC c)).reverse.dropWhile (fun c => isSpaceC c)).reverse

/-- Model of the substitution collapsing whitespace: replace every maximal
run of whitespace characters by a single space. -/
def collapseWS : List Char → List Char
  | [] => []
  | [c] => [if isSpaceC c then ' ' else c]
  | c :: d :: cs =>
    if isSpaceC c && isSpaceC d then collapseWS (d :: cs)
    else (if isSpaceC c then ' ' else c) :: collapseWS (d :: cs)

/-- The cleaning pipeline of `Validators.sanitize_symptom_input` before the
length checks: strip, collapse whitespace runs, then remove disallowed
characters (in exactly this order, as in the Python source). -/
def cleanChars (l : List Char) : List Char :=
  (collapseWS (stripWS l)).filter allowedC

/-- Embedding of `Validators.sanitize_symptom_input`: clean the text, reject when the
cleaned text is shorter than 3 or longer than 500 characters, and lower-case
the result.  `ValidationError` is modelled as the `Except.error` branch. -/
def sanitize_symptom_input (symptom : String) : Except String String :=
  let cleaned := cleanChars symptom.data
  if cleaned.length < 3 then
    Except.error "Symptom description must be at least 3 characters"
  else if cleaned.length > 500 then
    Except.error "Symptom description must be less than 500 characters"
  else
    Except.ok (String.mk (cleaned.map Char.toLower))

/-! Red-flag detection (`SymptomDetector._detect_red_flags`) -/

/-- One entry of the `red_flags` list built by `_detect_red_flags`. -/
structure RedFlag where
  category : String
  pattern : String
  severity : String
deriving DecidableEq

/-- Initial-segment test: `startsWithL p l` holds when `p` starts `l`. -/
def startsWithL : List Char → List Char → Bool
  | [], _ => true
  | _ :: _, [] => false
  | p :: ps, c :: cs => p = c && startsWithL ps cs

/-- Python substring containment `needle in hay`, as a scan over the hay. -/
def containsSub (needle : List Char) : List Char → Bool
  | [] => needle.isEmpty
  | c :: cs => startsWithL needle (c :: cs) || containsSub needle cs

/-- Python substring containment `p in s` on strings. -/
def strContains (s p : String) : Bool :=
  containsSub p.data s.data

/-- The category → phrase-list catalogue hard-coded in `_detect_red_flags`,
in declaration (= dict insertion) order. -/
def red_flag_categories : List (String × List String) :=
  [("chest", ["chest pain", "chest pressure", "chest tightness", "heart pain"]),
   ("breathing", ["shortness of breath", "difficulty breathing", "can\x27t breathe", "trouble breathing"]),
   ("headache", ["sudden severe headache", "worst headache", "severe headache"]),
   ("vision", ["vision loss", "loss of vision", "sudden vision changes", "blind", "can\x27t see"]),
   ("weakness", ["weakness on one side", "facial drooping", "speech problems", "slurred speech"]),
   ("consciousness", ["loss of consciousness", "fainting", "passed out", "unconscious"]),
   ("blood", ["blood in stool", "blood in urine", "coughing blood", "vomiting blood"]),
   ("fever", ["high fever", "fever over 103", "burning up"]),
   ("allergic", ["severe allergic reaction", "anaphylaxis", "swelling face", "difficulty swallowing"])]

/-- The flat list of generic concerning phrases scanned after the catalogue. -/
def concerning_patterns : List String :=
  ["severe pain", "extreme pain", "unbearable pain",
   "sudden onset", "came on suddenly", "started suddenly",
   "getting worse", "worsening", "worse than ever"]

/-- Model of Python `str.lower()` (ASCII). -/
def lowerStr (s : String) : String :=
  String.mk (s.data.map Char.toLower)

/-- Embedding of `SymptomDetector._detect_red_flags`: scan every category phrase in
catalogue order (severity `"high"`), then every generic concerning phrase
(severity `"medium"`); matches accumulate, nothing short-circuits. -/
def detect_red_flags (description : String) : List RedFlag :=
  let dl := lowerStr description
  (red_flag_categories.map (fun cp =>
      (cp.2.filter (fun p => strContains dl p)).map
        (fun p => RedFlag.mk cp.1 p "high"))).flatten
  ++ (concerning_patterns.filter (fun p => strContains dl p)).map
       (fun p => RedFlag.mk "concerning" p "medium")

/-! Urgency classification (`SymptomDetector._assess_urgency`) -/

def emergency_categories : List String :=
  ["chest", "breathing", "consciousness", "allergic"]

def urgent_categories : List String :=
  ["headache", "vision", "weakness", "blood", "fever"]

/-- Embedding of `SymptomDetector._assess_urgency`: empty → low; any emergency category →
emergency; else any urgent category → urgent; else ≥ 3 flags → urgent;
else moderate. -/
def assess_urgency (red_flags : List RedFlag) : String :=
  if red_flags.isEmpty then "low"
  else if red_flags.any (fun f => emergency_categories.contains f.category) then "emergency"
  else if red_flags.any (fun f => urgent_categories.contains f.category) then "urgent"
  else if red_flags.length ≥ 3 then "urgent"
  else "moderate"

/-! Response rendering (`SymptomDetector._generate_response`) -/

/-- The `emergency_advice` category → instruction map built in
`SymptomDetector.__init__`. -/
def emergency_advice : List (String × String) :=
  [("chest", "🚨 URGENT: Chest pain can be a sign of a heart attack. Call emergency services (911) immediately."),
   ("breathing", "🚨 URGENT: Difficulty breathing requires immediate medical attention. Call 911."),
   ("headache", "🚨 URGENT: Sudden severe headache may indicate stroke or aneurysm. Seek emergency care."),
   ("vision", "🚨 URGENT: Sudden vision loss requires immediate medical attention."),
   ("weakness", "🚨 URGENT: Sudden weakness may indicate stroke. Call 911 immediately."),
   ("consciousness", "🚨 URGENT: Loss of consciousness requires emergency medical care."),
   ("blood", "⚠️  Blood in stool, urine, or coughing blood requires immediate medical evaluation."),
   ("fever", "⚠️  High fever (over 103°F/39.4°C) requires medical attention."),
   ("allergic", "🚨 URGENT: Severe allergic reactions can be life-threatening. Call 911.")]

/-- The string `Config.MEDICAL_DISCLAIMER`. -/
def MEDICAL_DISCLAIMER : String :=
  "⚠️  IMPORTANT DISCLAIMER: This advice is for general wellness purposes only. It is not a substitute for professional medical advice, diagnosis, or treatment. Always consult with a qualified healthcare provider for medical concerns."

/-- The emergency-branch loop of `_generate_response`: append the instruction
of the first flag whose category is a key of `emergency_advice`, then break. -/
def adviceBlock (red_flags : List RedFlag) : List String :=
  match red_flags.find? (fun f => (emergency_advice.lookup f.category).isSome) with
  | some f => [(emergency_advice.lookup f.category).getD ""]
  | none => []

/-- The urgency-specific banner and directive lines of `_generate_response`. -/
def banner_lines (red_flags : List RedFlag) (urgency : String) : List String :=
  if urgency = "emergency" then
    ["🚨 MEDICAL EMERGENCY DETECTED 🚨",
     "This appears to be a medical emergency. Call 911 or emergency services IMMEDIATELY."]
    ++ adviceBlock red_flags
  else if urgency = "urgent" then
    ["⚠️  URGENT MEDICAL ATTENTION NEEDED",
     "These symptoms require prompt medical evaluation. Contact your doctor or visit urgent care immediately."]
  else if urgency = "moderate" then
    ["⚠️  Medical Consultation Recommended",
     "Consider scheduling an appointment with your healthcare provider to discuss these symptoms."]
  else
    ["ℹ️  General Wellness Information",
     "While these symptoms may not be immediately concerning, monitor them and consult a healthcare professional if they persist or worsen."]

/-- The detected-symptoms block of `_generate_response`: present only when
`red_flags` is non-empty, listing at most the first 3 matched patterns. -/
def symptom_lines (red_flags : List RedFlag) : List String :=
  if red_flags.isEmpty then []
  else "\nDetected concerning symptoms:" :: (red_flags.take 3).map (fun f => "• " ++ f.pattern)

/-- The general self-care tips block of `_generate_response`, appended only
for urgency `low` or `moderate`. -/
def tips_lines (urgency : String) : List String :=
  if urgency ∈ (["low", "moderate"] : List String) then
    ["\nGeneral self-care tips:",
     "• Stay hydrated",
     "• Get adequate rest",
     "• Monitor symptoms",
     "• Keep a symptom diary"]
  else []

/-- The full line list built by `_generate_response` before `"\n".join`. -/
def generate_response_lines (description : String) (red_flags : List RedFlag)
    (urgency : String) : List String :=
  banner_lines red_flags urgency
  ++ symptom_lines red_flags
  ++ ["\n" ++ MEDICAL_DISCLAIMER]
  ++ tips_lines urgency

/-- Model of the Python `join` on newline. -/
def joinLines : List String → String
  | [] => ""
  | [x] => x
  | x :: xs => x ++ "\n" ++ joinLines xs

/-- Embedding of `SymptomDetector._generate_response`. -/
def generate_response (description : String) (red_flags : List RedFlag)
    (urgency : String) : String :=
  joinLines (generate_response_lines description red_flags urgency)

/-! The entry point (`SymptomDetector.analyze_symptoms`) -/

/-- The dictionary returned by `analyze_symptoms` on the success path. -/
structure Analysis where
  original_input : String
  cleaned_input : String
  red_flags : List RedFlag
  urgency_level : String
  response : String
  requires_medical_attention : Bool

/-- Result of `analyze_symptoms`: either the analysis dictionary, or the
error dictionary built by the catch-all `except` clause (error message,
fallback response, `requires_medical_attention` value). -/
inductive AnalysisResult where
  | ok (a : Analysis)
  | failure (errMsg : String) (response : String) (requires_medical_attention : Bool)

/-- Embedding of `SymptomDetector.analyze_symptoms`: sanitize, detect, classify, render;
a `ValidationError` raised by the sanitizer is caught by the `except` clause,
which returns the fallback dictionary with `requires_medical_attention = True`. -/
def analyze_symptoms (symptom_description : String) : AnalysisResult :=
  match sanitize_symptom_input symptom_description with
  | Except.error e =>
    AnalysisResult.failure ("Error analyzing symptoms: " ++ e)
      "Unable to analyze symptoms. Please consult a healthcare professional." true
  | Except.ok clean_description =>
    let red_flags := detect_red_flags clean_description
    let urgency := assess_urgency red_flags
    AnalysisResult.ok
      { original_input := symptom_description
        cleaned_input := clean_description
        red_flags := red_flags
        urgency_level := urgency
        response := generate_response clean_description red_flags urgency
        requires_medical_attention := decide (urgency ∈ (["emergency", "urgent"] : List String)) }

/-! Helper predicates for whitespace structure -/

/-- Whether a character list starts with a whitespace character. -/
def headSpace : List Char → Bool
  | [] => false
  | c :: _ => isSpaceC c

/-- Whitespace-normal form: every whitespace character is a literal space and
is not followed by another whitespace character. -/
def wsNormal : List Char → Bool
  | [] => true
  | c :: cs => (!isSpaceC c || (decide (c = ' ') && !headSpace cs)) && wsNormal cs

/-- A raw input of 501 characters whose cleaned form is the 3-character
string `abc`. -/
def longRaw : String := String.mk ('a' :: 'b' :: 'c' :: List.replicate 498 ' ')

/-! Arithmetic facts about `Char.toLower` -/

theorem char_toNat_inj {c d : Char} (h : c.toNat = d.toNat) : c = d := by
  apply Char.eq_of_val_eq
  apply UInt32.eq_of_val_eq
  exact Fin.eq_of_val_eq h

theorem toNat_char_ofNat {n : Nat} (h : n.isValidChar) : (Char.ofNat n).toNat = n := by
  rw [Char.ofNat, dif_pos h]
  rfl

theorem toNat_toLower (c : Char) :
    (Char.toLower c).toNat =
      if 65 ≤ c.toNat ∧ c.toNat ≤ 90 then c.toNat + 32 else c.toNat := by
  simp only [Char.toLower, ge_iff_le]
  split
  · next h => exact toNat_char_ofNat (Or.inl (by omega))
  · rfl

theorem toLower_idem (c : Char) : Char.toLower (Char.toLower c) = Char.toLower c := by
  have h := toNat_toLower c
  have h2 := toNat_toLower (Char.toLower c)
  split at h
  · rw [if_neg (by omega)] at h2
    exact char_toNat_inj h2
  · rw [if_neg (by omega)] at h2
    exact char_toNat_inj h2

theorem isSpaceC_toLower (c : Char) : isSpaceC (Char.toLower c) = isSpaceC c := by
  rw [Bool.eq_iff_iff]
  simp only [isSpaceC, Bool.or_eq_true, decide_eq_true_eq]
  rw [toNat_toLower]
  split <;> omega

theorem allowedC_toLower (c : Char) (h : allowedC c = true) :
    allowedC (Char.toLower c) = true := by
  have ht := toNat_toLower c
  simp only [allowedC, isWordC, isSpaceC, Bool.or_eq_true, Bool.and_eq_true,
    decide_eq_true_eq] at h ⊢
  rw [ht]
  split <;> omega

theorem toLower_of_space (c : Char) (h : isSpaceC c = true) : Char.toLower c = c := by
  have ht := toNat_toLower c
  simp only [isSpaceC, Bool.or_eq_true, decide_eq_true_eq] at h
  rw [if_neg (by omega)] at ht
  exact char_toNat_inj ht

theorem toLower_eq_space_iff (c : Char) : Char.toLower c = ' ' ↔ c = ' ' := by
  constructor
  · intro h
    have h2 : (Char.toLower c).toNat = 32 := by rw [h]; rfl
    rw [toNat_toLower] at h2
    split at h2
    · omega
    · exact char_toNat_inj h2
  · intro h
    rw [h]
    rfl

/-! Structural lemmas about whitespace normalization -/

theorem collapseWS_nil : collapseWS [] = [] := rfl

theorem collapseWS_one (c : Char) : collapseWS [c] = [if isSpaceC c then ' ' else c] := rfl

theorem collapseWS_cons2_pos {c d : Char} {cs : List Char}
    (h : (isSpaceC c && isSpaceC d) = true) :
    collapseWS (c :: d :: cs) = collapseWS (d :: cs) := by
  simp only [collapseWS]
  rw [if_pos h]

theorem collapseWS_cons2_neg {c d : Char} {cs : List Char}
    (h : ¬(isSpaceC c && isSpaceC d) = true) :
    collapseWS (c :: d :: cs) = (if isSpaceC c then ' ' else c) :: collapseWS (d :: cs) := by
  simp only [collapseWS]
  rw [if_neg h]

theorem headSpace_collapseWS (l : List Char) : headSpace (collapseWS l) = headSpace l := by
  induction l using collapseWS.induct with
  | case1 => rfl
  | case2 c =>
    rw [collapseWS_one]
    show isSpaceC (if isSpaceC c then ' ' else c) = isSpaceC c
    split
    · next h => rw [h]; decide
    · rfl
  | case3 c d cs h ih =>
    have h2 : isSpaceC c = true ∧ isSpaceC d = true := by simpa [Bool.and_eq_true] using h
    rw [collapseWS_cons2_pos h, ih]
    show isSpaceC d = isSpaceC c
    rw [h2.1, h2.2]
  | case4 c d cs h ih =>
    rw [collapseWS_cons2_neg h]
    show isSpaceC (if isSpaceC c then ' ' else c) = isSpaceC c
    split
    · next hc => rw [hc]; decide
    · rfl

theorem wsNormal_collapseWS (l : List Char) : wsNormal (collapseWS l) = true := by
  induction l using collapseWS.induct with
  | case1 => rfl
  | case2 c =>
    rw [collapseWS_one]
    show wsNormal [if isSpaceC c then ' ' else c] = true
    split
    · decide
    · next h =>
      simp only [wsNormal, headSpace, Bool.eq_false_iff.mpr h]
      rfl
  | case3 c d cs h ih => rw [collapseWS_cons2_pos h]; exact ih
  | case4 c d cs h ih =>
    rw [collapseWS_cons2_neg h]
    show ((!isSpaceC (if isSpaceC c then ' ' else c) ||
      (decide ((if isSpaceC c then ' ' else c) = ' ') && !headSpace (collapseWS (d :: cs)))) &&
      wsNormal (collapseWS (d :: cs))) = true
    rw [ih, headSpace_collapseWS]
    simp only [Bool.and_eq_true, not_and, Bool.not_eq_true] at h
    split
    · next hc =>
      have hd : isSpaceC d = false := h hc
      show ((!isSpaceC ' ' || (decide (' ' = ' ') && !headSpace (d :: cs))) && true) = true
      have : headSpace (d :: cs) = isSpaceC d := rfl
      rw [this, hd]
      decide
    · next hc =>
      simp [Bool.eq_false_iff.mpr hc]

theorem wsNormal_cons_iff (c : Char) (cs : List Char) :
    wsNormal (c :: cs) = true ↔
      ((isSpaceC c = false ∨ (c = ' ' ∧ headSpace cs = false)) ∧ wsNormal cs = true) := by
  show ((!isSpaceC c || (decide (c = ' ') && !headSpace cs)) && wsNormal cs) = true ↔ _
  simp only [Bool.and_eq_true, Bool.or_eq_true, Bool.not_eq_true', decide_eq_true_eq]

theorem collapseWS_of_wsNormal (l : List Char) (h : wsNormal l = true) :
    collapseWS l = l := by
  induction l using collapseWS.induct with
  | case1 => rfl
  | case2 c =>
    rw [collapseWS_one]
    rcases ((wsNormal_cons_iff c []).mp h).1 with h1 | ⟨h1, _⟩
    · rw [if_neg (by rw [h1]; exact Bool.false_ne_true)]
    · rw [if_pos (by rw [h1]; decide), h1]
  | case3 c d cs hcd ih =>
    exfalso
    have h2 : isSpaceC c = true ∧ isSpaceC d = true := by simpa [Bool.and_eq_true] using hcd
    rcases ((wsNormal_cons_iff c (d :: cs)).mp h).1 with h1 | ⟨_, h3⟩
    · rw [h2.1] at h1; cases h1
    · have : headSpace (d :: cs) = isSpaceC d := rfl
      rw [this, h2.2] at h3; cases h3
  | case4 c d cs hcd ih =>
    rw [collapseWS_cons2_neg hcd]
    obtain ⟨h1, h2⟩ := (wsNormal_cons_iff c (d :: cs)).mp h
    rw [ih h2]
    congr 1
    rcases h1 with h1 | ⟨h1, _⟩
    · rw [if_neg (by rw [h1]; exact Bool.false_ne_true)]
    · rw [if_pos (by rw [h1]; decide), h1]

theorem headSpace_dropWhile (l : List Char) :
    headSpace (l.dropWhile (fun c => isSpaceC c)) = false := by
  induction l with
  | nil => rfl
  | cons c cs ih =>
    rw [List.dropWhile_cons]
    split
    · exact ih
    · next hc => simpa [headSpace] using hc

theorem dropWhile_of_headSpace_false (l : List Char) (h : headSpace l = false) :
    l.dropWhile (fun c => isSpaceC c) = l := by
  cases l with
  | nil => rfl
  | cons c cs =>
    rw [List.dropWhile_cons, if_neg]
    simp only [headSpace] at h
    simp [h]

theorem headSpace_of_isPrefix {p l : List Char} (h : p <+: l) (hp : p ≠ []) :
    headSpace p = headSpace l := by
  obtain ⟨t, ht⟩ := h
  cases p with
  | nil => exact absurd rfl hp
  | cons c cs => rw [← ht]; rfl

theorem headSpace_stripWS (l : List Char) : headSpace (stripWS l) = false := by
  unfold stripWS
  set A := l.dropWhile (fun c => isSpaceC c) with hA
  set B := A.reverse.dropWhile (fun c => isSpaceC c) with hB
  have hsuf : B <:+ A.reverse := List.dropWhile_suffix _
  have hpre : B.reverse <+: A := by
    rw [← List.reverse_reverse A]
    exact List.reverse_prefix.mpr hsuf
  by_cases hBnil : B.reverse = []
  · rw [hBnil]; rfl
  · rw [headSpace_of_isPrefix hpre hBnil]
    rw [hA]
    exact headSpace_dropWhile l

theorem trailSpace_stripWS (l : List Char) : headSpace (stripWS l).reverse = false := by
  unfold stripWS
  rw [List.reverse_reverse]
  exact headSpace_dropWhile _

theorem stripWS_of_no_edges (l : List Char) (h1 : headSpace l = false)
    (h2 : headSpace l.reverse = false) : stripWS l = l := by
  unfold stripWS
  rw [dropWhile_of_headSpace_false l h1, dropWhile_of_headSpace_false l.reverse h2,
    List.reverse_reverse]

theorem headSpace_map_toLower (l : List Char) :
    headSpace (l.map Char.toLower) = headSpace l := by
  cases l with
  | nil => rfl
  | cons c cs => simpa [headSpace] using isSpaceC_toLower c

theorem wsNormal_map_toLower (l : List Char) :
    wsNormal (l.map Char.toLower) = wsNormal l := by
  induction l with
  | nil => rfl
  | cons c cs ih =>
    rw [Bool.eq_iff_iff, List.map_cons, wsNormal_cons_iff, wsNormal_cons_iff,
      isSpaceC_toLower, toLower_eq_space_iff, headSpace_map_toLower, ih]

theorem mem_collapseWS {x : Char} {l : List Char} (h : x ∈ collapseWS l) :
    x ∈ l ∨ x = ' ' := by
  induction l using collapseWS.induct with
  | case1 => cases h
  | case2 c =>
    rw [collapseWS_one] at h
    rcases List.mem_singleton.mp h with h
    split at h
    · right; exact h
    · left; rw [h]; exact List.mem_singleton_self c
  | case3 c d cs hcd ih =>
    rw [collapseWS_cons2_pos hcd] at h
    rcases ih h with h | h
    · left; exact List.mem_cons_of_mem c h
    · right; exact h
  | case4 c d cs hcd ih =>
    rw [collapseWS_cons2_neg hcd] at h
    rcases List.mem_cons.mp h with h | h
    · split at h
      · right; exact h
      · left; rw [h]; exact List.mem_cons_self c _
    · rcases ih h with h | h
      · left; exact List.mem_cons_of_mem c h
      · right; exact h

theorem mem_stripWS {x : Char} {l : List Char} (h : x ∈ stripWS l) : x ∈ l := by
  unfold stripWS at h
  rw [List.mem_reverse] at h
  have h2 := (List.dropWhile_suffix (l := (l.dropWhile (fun c => isSpaceC c)).reverse)
    (fun c => isSpaceC c)).mem h
  rw [List.mem_reverse] at h2
  exact (List.dropWhile_suffix (fun c => isSpaceC c)).mem h2

theorem all_allowed_collapseWS_stripWS {l : List Char}
    (h : l.all allowedC = true) : (collapseWS (stripWS l)).all allowedC = true := by
  rw [List.all_eq_true] at h ⊢
  intro x hx
  rcases mem_collapseWS hx with h2 | h2
  · exact h x (mem_stripWS h2)
  · rw [h2]; decide

theorem headSpace_append_left {A : List Char} (B : List Char) (h : A ≠ []) :
    headSpace (A ++ B) = headSpace A := by
  cases A with
  | nil => exact absurd rfl h
  | cons c cs => rfl

theorem collapseWS_ne_nil {l : List Char} (h : l ≠ []) : collapseWS l ≠ [] := by
  induction l using collapseWS.induct with
  | case1 => exact absurd rfl h
  | case2 c => rw [collapseWS_one]; exact List.cons_ne_nil _ _
  | case3 c d cs hcd ih => rw [collapseWS_cons2_pos hcd]; exact ih (List.cons_ne_nil d cs)
  | case4 c d cs hcd ih => rw [collapseWS_cons2_neg hcd]; exact List.cons_ne_nil _ _

theorem trailSpace_collapseWS (l : List Char) :
    headSpace (collapseWS l).reverse = headSpace l.reverse := by
  induction l using collapseWS.induct with
  | case1 => rfl
  | case2 c =>
    rw [collapseWS_one]
    show isSpaceC (if isSpaceC c then ' ' else c) = isSpaceC c
    split
    · next hc => rw [hc]; decide
    · rfl
  | case3 c d cs hcd ih =>
    have hrev : (c :: d :: cs).reverse = (d :: cs).reverse ++ [c] := List.reverse_cons c (d :: cs)
    rw [collapseWS_cons2_pos hcd, ih, hrev, headSpace_append_left _ (by simp)]
  | case4 c d cs hcd ih =>
    have hne : (collapseWS (d :: cs)).reverse ≠ [] := by
      simpa using collapseWS_ne_nil (List.cons_ne_nil d cs)
    have hrev : (c :: d :: cs).reverse = (d :: cs).reverse ++ [c] := List.reverse_cons c (d :: cs)
    rw [collapseWS_cons2_neg hcd, List.reverse_cons, headSpace_append_left _ hne, ih,
      hrev, headSpace_append_left _ (by simp)]

theorem cleanChars_of_all_allowed {l : List Char} (h : l.all allowedC = true) :
    cleanChars l = collapseWS (stripWS l) := by
  unfold cleanChars
  exact List.filter_eq_self.mpr (List.all_eq_true.mp (all_allowed_collapseWS_stripWS h))

theorem sanitize_ok_inv {s r : String} (h : sanitize_symptom_input s = Except.ok r) :
    ¬(cleanChars s.data).length < 3 ∧ ¬(cleanChars s.data).length > 500 ∧
      r = String.mk ((cleanChars s.data).map Char.toLower) := by
  unfold sanitize_symptom_input at h
  simp only [] at h
  split at h
  · cases h
  · split at h
    · cases h
    · next h1 h2 => exact ⟨h1, h2, (Except.ok.injEq _ _).mp h |>.symm⟩

theorem string_mk_data (r : String) : String.mk r.data = r := rfl

theorem map_toLower_idem (l : List Char) :
    (l.map Char.toLower).map Char.toLower = l.map Char.toLower := by
  rw [List.map_map]
  exact List.map_congr_left (fun c _ => toLower_idem c)

theorem sanitize_props {s r : String} (hall : s.data.all allowedC = true)
    (h : sanitize_symptom_input s = Except.ok r) :
    r.data = (collapseWS (stripWS s.data)).map Char.toLower ∧
    headSpace r.data = false ∧ headSpace r.data.reverse = false ∧
    wsNormal r.data = true ∧ r.data.all allowedC = true := by
  obtain ⟨h3, h500, hr⟩ := sanitize_ok_inv h
  rw [cleanChars_of_all_allowed hall] at hr
  have hdata : r.data = (collapseWS (stripWS s.data)).map Char.toLower := by rw [hr]
  refine ⟨hdata, ?_, ?_, ?_, ?_⟩
  · rw [hdata, headSpace_map_toLower, headSpace_collapseWS]
    exact headSpace_stripWS s.data
  · rw [hdata, ← List.map_reverse, headSpace_map_toLower, trailSpace_collapseWS]
    exact trailSpace_stripWS s.data
  · rw [hdata, wsNormal_map_toLower]
    exact wsNormal_collapseWS (stripWS s.data)
  · rw [hdata, List.all_eq_true]
    intro x hx
    obtain ⟨y, hy, hxy⟩ := List.mem_map.mp hx
    rw [← hxy]
    exact allowedC_toLower y
      (List.all_eq_true.mp (all_allowed_collapseWS_stripWS hall) y hy)

/-- C5 (amended): sanitization is idempotent on every input all of whose
characters are allowed (word characters, whitespace, `- . , ! ?`): if
`sanitize` succeeds on such an input `s` with result `r`, then applying
`sanitize` to `r` succeeds and returns `r` unchanged.  (Unrestricted
idempotence fails, because removing a disallowed character can create
leading or doubled whitespace after whitespace normalization has already
run — see the counterexample.) -/
theorem sanitize_idem_allowed (s r : String) (hall : s.data.all allowedC = true)
    (h : sanitize_symptom_input s = Except.ok r) :
    sanitize_symptom_input r = Except.ok r := by
  obtain ⟨hdata, hedge1, hedge2, hnorm, hallow⟩ := sanitize_props hall h
  have hclean : cleanChars r.data = r.data := by
    unfold cleanChars
    rw [stripWS_of_no_edges r.data hedge1 hedge2, collapseWS_of_wsNormal r.data hnorm]
    exact List.filter_eq_self.mpr (List.all_eq_true.mp hallow)
  obtain ⟨h3, h500, _⟩ := sanitize_ok_inv h
  have hlen : (cleanChars r.data).length = (cleanChars s.data).length := by
    rw [hclean, hdata, List.length_map, cleanChars_of_all_allowed hall]
  unfold sanitize_symptom_input
  simp only []
  rw [if_neg (by rw [hlen]; exact h3), if_neg (by rw [hlen]; exact h500), hclean]
  rw [hdata, map_toLower_idem, ← hdata, string_mk_data]

theorem mem_joinLines {x : String} (l : List String) (h : x ∈ l) :
    x.data <:+: (joinLines l).data := by
  induction l with
  | nil => cases h
  | cons a t ih =>
    cases t with
    | nil =>
      rw [List.mem_singleton.mp h]
      exact List.infix_refl _
    | cons b t2 =>
      show x.data <:+: (a ++ "\n" ++ joinLines (b :: t2)).data
      rw [String.data_append, String.data_append]
      rcases List.mem_cons.mp h with h | h
      · subst h
        rw [List.append_assoc]
        exact (List.prefix_append x.data _).isInfix
      · exact (ih h).trans (List.suffix_append _ _).isInfix

theorem lookup_mem_snd {l : List (String × String)} {k v : String}
    (h : l.lookup k = some v) : v ∈ l.map Prod.snd := by
  induction l with
  | nil => cases h
  | cons p t ih =>
    simp only [List.lookup] at h
    split at h
    · rw [List.map_cons]
      exact (Option.some.injEq _ _).mp h ▸ List.mem_cons_self _ _
    · exact List.mem_cons_of_mem _ (ih h)

theorem adviceBlock_subset {flags : List RedFlag} {x : String} (h : x ∈ adviceBlock flags) :
    x ∈ emergency_advice.map Prod.snd := by
  unfold adviceBlock at h
  split at h
  · next f hf =>
    have hs : (emergency_advice.lookup f.category).isSome = true := by
      simpa using List.find?_some hf
    obtain ⟨v, hv⟩ := Option.isSome_iff_exists.mp hs
    rw [List.mem_singleton.mp h, hv]
    exact lookup_mem_snd hv
  · cases h

theorem banner_head_ne_newline {flags : List RedFlag} {u x : String}
    (h : x ∈ banner_lines flags u) : x.data.head? ≠ some '\n' := by
  unfold banner_lines at h
  split at h
  · rcases List.mem_append.mp h with h | h
    · rcases List.mem_cons.mp h with rfl | h
      · decide
      · rcases List.mem_singleton.mp h with rfl
        decide
    · exact (by decide : ∀ y ∈ emergency_advice.map Prod.snd, y.data.head? ≠ some '\n')
        x (adviceBlock_subset h)
  · split at h
    · rcases List.mem_cons.mp h with rfl | h
      · decide
      · rcases List.mem_singleton.mp h with rfl
        decide
    · split at h
      · rcases List.mem_cons.mp h with rfl | h
        · decide
        · rcases List.mem_singleton.mp h with rfl
          decide
      · rcases List.mem_cons.mp h with rfl | h
        · decide
        · rcases List.mem_singleton.mp h with rfl
          decide

theorem bullet_head (p : String) : ("• " ++ p).data.head? = some '•' := by
  rw [String.data_append]
  rfl

theorem not_newline_of_bullet {x p : String} (h : x = "• " ++ p) :
    x.data.head? ≠ some '\n' := by
  rw [h, bullet_head]
  decide

theorem symptom_lines_mem {flags : List RedFlag} {x : String}
    (h : x ∈ symptom_lines flags) :
    x = "\nDetected concerning symptoms:" ∨ ∃ f ∈ flags.take 3, x = "• " ++ f.pattern := by
  unfold symptom_lines at h
  split at h
  · cases h
  · rcases List.mem_cons.mp h with h | h
    · exact Or.inl h
    · obtain ⟨f, hf, hx⟩ := List.mem_map.mp h
      exact Or.inr ⟨f, hf, hx.symm⟩

theorem tips_header_mem_iff (u : String) :
    ("\nGeneral self-care tips:" ∈ tips_lines u) ↔ (u = "low" ∨ u = "moderate") := by
  unfold tips_lines
  split
  · next h =>
    have hu : u = "low" ∨ u = "moderate" := by simpa [List.mem_cons] using h
    constructor
    · intro _
      exact hu
    · intro _
      exact List.mem_cons_self _ _
  · next h =>
    have hu : ¬(u = "low" ∨ u = "moderate") := by
      intro hc
      exact h (by rcases hc with rfl | rfl <;> simp)
    constructor
    · intro hx
      cases hx
    · intro hx
      exact absurd hx hu

theorem tips_lines_no_detected {u x : String} (h : x ∈ tips_lines u) :
    x ≠ "\nDetected concerning symptoms:" := by
  unfold tips_lines at h
  split at h
  · exact (by decide : ∀ y ∈ (["\nGeneral self-care tips:", "• Stay hydrated",
      "• Get adequate rest", "• Monitor symptoms", "• Keep a symptom diary"] : List String),
      y ≠ "\nDetected concerning symptoms:") x h
  · cases h

/-- C9: for every sanitized input, match list, and urgency tier, the rendered
response contains the fixed medical disclaimer verbatim; the detected-symptoms
block (listing at most the first 3 matched phrases in match order) is present
exactly when the match list is non-empty; and the general self-care tip list
appears exactly when the urgency is `low` or `moderate`. -/
theorem generate_response_structure (d : String) (flags : List RedFlag) (u : String) :
    MEDICAL_DISCLAIMER.data <:+: (generate_response d flags u).data ∧
    ("\nGeneral self-care tips:" ∈ generate_response_lines d flags u ↔
      (u = "low" ∨ u = "moderate")) ∧
    ("\nDetected concerning symptoms:" ∈ generate_response_lines d flags u ↔
      flags.isEmpty = false) ∧
    (∃ pre post, generate_response_lines d flags u =
      pre ++ (if flags.isEmpty then [] else
        "\nDetected concerning symptoms:" :: (flags.take 3).map (fun f => "• " ++ f.pattern))
        ++ post) := by
  have hdmem : ("\n" ++ MEDICAL_DISCLAIMER) ∈ generate_response_lines d flags u := by
    unfold generate_response_lines
    simp
  refine ⟨?_, ?_, ?_, ?_⟩
  · have hinf := mem_joinLines _ hdmem
    have hsuf : MEDICAL_DISCLAIMER.data <:+ ("\n" ++ MEDICAL_DISCLAIMER).data := by
      rw [String.data_append]
      exact ⟨"\n".data, rfl⟩
    exact hsuf.isInfix.trans hinf
  · constructor
    · intro h
      unfold generate_response_lines at h
      rcases List.mem_append.mp h with h | h
      · rcases List.mem_append.mp h with h | h
        · rcases List.mem_append.mp h with h | h
          · exact absurd (by decide) (banner_head_ne_newline h)
          · rcases symptom_lines_mem h with h | ⟨f, _, h⟩
            · exact absurd h (by decide)
            · exact absurd (by decide) (not_newline_of_bullet h)
        · exact absurd (List.mem_singleton.mp h) (by decide)
      · exact (tips_header_mem_iff u).mp h
    · intro h
      unfold generate_response_lines
      exact List.mem_append.mpr (Or.inr ((tips_header_mem_iff u).mpr h))
  · constructor
    · intro h
      unfold generate_response_lines at h
      rcases List.mem_append.mp h with h | h
      · rcases List.mem_append.mp h with h | h
        · rcases List.mem_append.mp h with h | h
          · exact absurd (by decide) (banner_head_ne_newline h)
          · unfold symptom_lines at h
            split at h
            · cases h
            · next hne => simpa [List.isEmpty_iff] using hne
        · exact absurd (List.mem_singleton.mp h) (by decide)
      · exact absurd rfl (tips_lines_no_detected h)
    · intro h
      unfold generate_response_lines symptom_lines
      rw [if_neg (by rw [h]; exact Bool.false_ne_true)]
      exact List.mem_append.mpr (Or.inl (List.mem_append.mpr (Or.inl
        (List.mem_append.mpr (Or.inr (List.mem_cons_self _ _))))))
  · refine ⟨banner_lines flags u, ["\n" ++ MEDICAL_DISCLAIMER] ++ tips_lines u, ?_⟩
    unfold generate_response_lines symptom_lines
    rw [List.append_assoc]

/-- C1: any match whose category is emergency-eligible forces the urgency
classification to `emergency`, regardless of the other matches. -/
theorem assess_urgency_emergency_dominates (flags : List RedFlag) (f : RedFlag)
    (hmem : f ∈ flags) (hcat : f.category ∈ emergency_categories) :
    assess_urgency flags = "emergency" := by
  unfold assess_urgency
  rw [if_neg, if_pos]
  · exact List.any_eq_true.mpr ⟨f, hmem, List.elem_eq_true_of_mem hcat⟩
  · intro h
    exact List.ne_nil_of_mem hmem (List.isEmpty_iff.mp h)

theorem assess_urgency_emergency_dominates_witness :
    assess_urgency
      [RedFlag.mk "concerning" "severe pain" "medium",
       RedFlag.mk "headache" "severe headache" "high",
       RedFlag.mk "allergic" "anaphylaxis" "high"] = "emergency" :=
  assess_urgency_emergency_dominates _ (RedFlag.mk "allergic" "anaphylaxis" "high")
    (by decide) (by decide)

/-- C2: when no match is in the emergency-eligible or urgent-eligible
category sets, the classifier returns `urgent` for 3 or more matches,
`moderate` for 1 or 2 matches, and `low` for an empty match list. -/
theorem assess_urgency_count_escalation (flags : List RedFlag)
    (h : ∀ f ∈ flags, f.category ∉ emergency_categories ∧ f.category ∉ urgent_categories) :
    (flags = [] → assess_urgency flags = "low") ∧
    (1 ≤ flags.length → flags.length ≤ 2 → assess_urgency flags = "moderate") ∧
    (3 ≤ flags.length → assess_urgency flags = "urgent") := by
  have hem : flags.any (fun f => emergency_categories.contains f.category) = false := by
    rw [List.any_eq_false]
    intro f hf hc
    exact (h f hf).1 (List.mem_of_elem_eq_true hc)
  have hur : flags.any (fun f => urgent_categories.contains f.category) = false := by
    rw [List.any_eq_false]
    intro f hf hc
    exact (h f hf).2 (List.mem_of_elem_eq_true hc)
  refine ⟨?_, ?_, ?_⟩
  · intro h0
    rw [h0]
    rfl
  · intro h1 h2
    have hne : flags.isEmpty = false := by
      cases flags with
      | nil => simp at h1
      | cons a t => rfl
    unfold assess_urgency
    rw [hne, hem, hur, if_neg Bool.false_ne_true, if_neg Bool.false_ne_true,
      if_neg Bool.false_ne_true, if_neg (by omega)]
  · intro h3
    have hne : flags.isEmpty = false := by
      cases flags with
      | nil => simp at h3
      | cons a t => rfl
    unfold assess_urgency
    rw [hne, hem, hur, if_neg Bool.false_ne_true, if_neg Bool.false_ne_true,
      if_neg Bool.false_ne_true, if_pos (by omega)]

theorem assess_urgency_count_escalation_witness :
    assess_urgency
      [RedFlag.mk "concerning" "severe pain" "medium",
       RedFlag.mk "concerning" "sudden onset" "medium",
       RedFlag.mk "concerning" "getting worse" "medium"] = "urgent" :=
  (assess_urgency_count_escalation _ (by decide)).2.2 (by decide)

/-- C3 counterexample: a raw input of 501 characters (`abc` followed by 498
spaces) is accepted by `sanitize`, so the claim that every raw input longer
than 500 characters is rejected is false: the 500-character bound is checked
on the cleaned text, not on the raw input. -/
theorem sanitize_accepts_501_raw_chars :
    500 < longRaw.length ∧ sanitize_symptom_input longRaw = Except.ok "abc" :=
  ⟨by decide, by rfl⟩

/-- C3 (amended): `sanitize` raises `ValidationError` exactly when the
cleaned text (after whitespace collapsing and character stripping) has length
below 3 or above 500 characters; the raw length is never tested directly. -/
theorem sanitize_error_iff_cleaned_bounds (s : String) :
    (∃ e, sanitize_symptom_input s = Except.error e) ↔
      ((cleanChars s.data).length < 3 ∨ 500 < (cleanChars s.data).length) := by
  unfold sanitize_symptom_input
  simp only []
  split
  · next h => exact ⟨fun _ => Or.inl h, fun _ => ⟨_, rfl⟩⟩
  · next h =>
    split
    · next h2 => exact ⟨fun _ => Or.inr h2, fun _ => ⟨_, rfl⟩⟩
    · next h2 =>
      constructor
      · rintro ⟨e, he⟩
        cases he
      · intro hc
        rcases hc with hc | hc
        · exact absurd hc h
        · exact absurd hc h2

/-- C4 counterexample: on the input `ab @ cd` sanitization succeeds and
returns `ab  cd`, which contains a run of two consecutive spaces: stripping
the disallowed `@` happens after whitespace collapsing, so the claimed
no-consecutive-whitespace invariant fails. -/
theorem sanitize_output_double_space :
    sanitize_symptom_input "ab @ cd" = Except.ok "ab  cd" ∧
    containsSub [' ', ' '] (String.data "ab  cd") = true :=
  ⟨by rfl, by rfl⟩

/-- C4 (amended): every successful `sanitize` output is entirely lowercase
and contains only word characters, whitespace and `- . , ! ?`; the
whitespace-shape parts of the claim (no doubled runs, no leading or trailing
whitespace) hold only when the raw input itself contains no disallowed
character, since character stripping runs after whitespace collapsing. -/
theorem sanitize_output_invariants (s r : String)
    (h : sanitize_symptom_input s = Except.ok r) :
    r.data.map Char.toLower = r.data ∧
    r.data.all allowedC = true ∧
    (s.data.all allowedC = true →
      wsNormal r.data = true ∧ headSpace r.data = false ∧
      headSpace r.data.reverse = false) := by
  obtain ⟨h3, h500, hr⟩ := sanitize_ok_inv h
  have hdata : r.data = (cleanChars s.data).map Char.toLower := by rw [hr]
  refine ⟨?_, ?_, ?_⟩
  · rw [hdata, map_toLower_idem]
  · rw [hdata, List.all_eq_true]
    intro x hx
    obtain ⟨y, hy, hxy⟩ := List.mem_map.mp hx
    rw [← hxy]
    exact allowedC_toLower y (List.of_mem_filter hy)
  · intro hall
    obtain ⟨_, he1, he2, hnorm, _⟩ := sanitize_props hall h
    exact ⟨hnorm, he1, he2⟩

theorem sanitize_output_invariants_witness :
    (String.data "chest pain!?").all allowedC = true ∧
    (String.data "chest pain!?").map Char.toLower = String.data "chest pain!?" :=
  ⟨(sanitize_output_invariants "Chest  Pain!?" "chest pain!?" (by rfl)).2.1,
   (sanitize_output_invariants "Chest  Pain!?" "chest pain!?" (by rfl)).1⟩

/-- C5 counterexample: on the input `@ abc` sanitization succeeds with
result ` abc` (the removed `@` leaves a leading space), and re-sanitizing
` abc` strips that space and yields `abc`, so `sanitize (sanitize x)` differs
from `sanitize x`. -/
theorem sanitize_not_idempotent :
    sanitize_symptom_input "@ abc" = Except.ok " abc" ∧
    sanitize_symptom_input " abc" = Except.ok "abc" ∧
    (" abc" : String) ≠ "abc" :=
  ⟨by rfl, by rfl, by decide⟩

theorem sanitize_idem_allowed_witness :
    sanitize_symptom_input "hello world" = Except.ok "hello world" :=
  sanitize_idem_allowed "Hello  World" "hello world" (by decide) (by rfl)

/-- C6 counterexample: `analyze_symptoms` succeeds (returns a normal
analysis dictionary) on a raw input of 501 characters, so the claim that
analysis fails with `ValidationError` whenever the raw input exceeds 500
characters is false — the bound is applied to the cleaned text. -/
theorem analyze_accepts_501_raw_chars :
    500 < longRaw.length ∧ ∃ a, analyze_symptoms longRaw = AnalysisResult.ok a :=
  ⟨by decide, ⟨_, rfl⟩⟩

/-- C6 (amended): `analyze_symptoms` never raises: it returns the fallback
error dictionary (with `requires_medical_attention = true`) exactly when the
cleaned input text has length below 3 or above 500 characters, and a normal
analysis result otherwise. -/
theorem analyze_failure_iff_cleaned_bounds (s : String) :
    ((∃ m resp req, analyze_symptoms s = AnalysisResult.failure m resp req) ↔
      ((cleanChars s.data).length < 3 ∨ 500 < (cleanChars s.data).length)) ∧
    (∀ m resp req, analyze_symptoms s = AnalysisResult.failure m resp req → req = true) := by
  by_cases hc : (cleanChars s.data).length < 3 ∨ 500 < (cleanChars s.data).length
  · obtain ⟨e, he⟩ := (sanitize_error_iff_cleaned_bounds s).mpr hc
    constructor
    · exact ⟨fun _ => hc, fun _ => ⟨_, _, _, by unfold analyze_symptoms; rw [he]⟩⟩
    · intro m resp req h
      unfold analyze_symptoms at h
      rw [he] at h
      injection h with h1 h2 h3
      exact h3.symm
  · cases hs : sanitize_symptom_input s with
    | error e =>
      exact absurd ((sanitize_error_iff_cleaned_bounds s).mp ⟨e, hs⟩) hc
    | ok clean =>
      constructor
      · constructor
        · rintro ⟨m, resp, req, h⟩
          unfold analyze_symptoms at h
          rw [hs] at h
          cases h
        · intro h
          exact absurd h hc
      · intro m resp req h
        unfold analyze_symptoms at h
        rw [hs] at h
        cases h

theorem analyze_failure_iff_cleaned_bounds_witness :
    ∃ m resp req, analyze_symptoms "ok" = AnalysisResult.failure m resp req :=
  (analyze_failure_iff_cleaned_bounds "ok").1.mpr (by decide)

/-- C7: in every successful analysis result, `requires_medical_attention` is
true exactly when the computed urgency level is `urgent` or `emergency`. -/
theorem requires_attention_iff_urgency (s : String) (a : Analysis)
    (h : analyze_symptoms s = AnalysisResult.ok a) :
    a.requires_medical_attention = true ↔
      (a.urgency_level = "urgent" ∨ a.urgency_level = "emergency") := by
  unfold analyze_symptoms at h
  cases hs : sanitize_symptom_input s with
  | error e =>
    rw [hs] at h
    cases h
  | ok clean =>
    rw [hs] at h
    simp only [] at h
    injection h with h1
    rw [← h1]
    simp only [decide_eq_true_eq, List.mem_cons]
    constructor
    · rintro (hx | hx | hx)
      · exact Or.inr hx
      · exact Or.inl hx
      · exact absurd hx (List.not_mem_nil _)
    · rintro (hx | hx)
      · exact Or.inr (Or.inl hx)
      · exact Or.inl hx

theorem requires_attention_iff_urgency_witness :
    ∃ a, analyze_symptoms "chest pain" = AnalysisResult.ok a ∧
      (a.requires_medical_attention = true ↔
        (a.urgency_level = "urgent" ∨ a.urgency_level = "emergency")) :=
  ⟨_, rfl, requires_attention_iff_urgency "chest pain" _ rfl⟩

/-- C8: the input `I have a mild headache` sanitizes to
`i have a mild headache`, matches no catalogue phrase at all (in particular
neither `severe headache` nor `sudden severe headache` occurs as a
substring), and is therefore classified `low`. -/
theorem mild_headache_no_match_low :
    sanitize_symptom_input "I have a mild headache" = Except.ok "i have a mild headache" ∧
    detect_red_flags "i have a mild headache" = [] ∧
    assess_urgency (detect_red_flags "i have a mild headache") = "low" ∧
    strContains "i have a mild headache" "severe headache" = false ∧
    strContains "i have a mild headache" "sudden severe headache" = false :=
  ⟨by rfl, by rfl, by rfl, by rfl, by rfl⟩

/-- C10: the `emergency_advice` map has an entry for every one of the nine
named categories (not only the four emergency-eligible ones); consequently,
for the input `severe headache and fainting` — whose first match in catalogue
scan order is the urgent-eligible `headache` category and whose
emergency-eligible `consciousness` match comes second — the urgency is
`emergency` but the instruction appended to the emergency response is the
`headache` one, not the `consciousness` one that triggered the tier. -/
theorem emergency_advice_first_match_wins :
    (red_flag_categories.map Prod.fst).all
        (fun c => (emergency_advice.lookup c).isSome) = true ∧
    detect_red_flags "severe headache and fainting" =
      [RedFlag.mk "headache" "severe headache" "high",
       RedFlag.mk "consciousness" "fainting" "high"] ∧
    assess_urgency (detect_red_flags "severe headache and fainting") = "emergency" ∧
    adviceBlock (detect_red_flags "severe headache and fainting") =
      ["🚨 URGENT: Sudden severe headache may indicate stroke or aneurysm. Seek emergency care."] ∧
    (generate_response_lines "severe headache and fainting"
        (detect_red_flags "severe headache and fainting") "emergency").contains
      "🚨 URGENT: Sudden severe headache may indicate stroke or aneurysm. Seek emergency care."
      = true ∧
    (generate_response_lines "severe headache and fainting"
        (detect_red_flags "severe headache and fainting") "emergency").contains
      "🚨 URGENT: Loss of consciousness requires emergency medical care." = false :=
  ⟨by rfl, by rfl, by rfl, by rfl, by rfl, by rfl⟩
